import Mathlib

/-!
Verification of the second-factor authentication core of the MovieDB
application (services `token_service.py`, `backup2fa_service.py`,
`user_2fa_service.py` and the model type `custom_types.py`), by a shallow
embedding of those Python modules into Lean.

Modelling conventions:
* machine time is a plain integer (`Int` for `time.time()` based JWT
  timestamps, `Nat` seconds for `datetime.now()` based database
  timestamps; `timedelta(days = d)` is `d * 86400` seconds);
* the external libraries are idealised at their interfaces: PyJWT
  signing is a constructor carrying the payload and the signing key,
  Fernet is an authenticated-encryption constructor carrying key and
  plaintext, the werkzeug salted password hash is a collision-free pair
  of salt and digest, and `pyotp.TOTP(...).verify` is an uninterpreted
  boolean function passed as a parameter;
* Python truthiness of an optional string (`if not x`) is `none` or the
  empty string;
* the SQLAlchemy session is explicit state passing on a `DBState`
  record; commit points where the source can raise `SQLAlchemyError`
  take an explicit failure flag that selects the rollback behaviour the
  source implements.
-/

/-- Enumeration `JWT_action` of `token_service.py`. -/
inductive JWT_action where
  | NO_ACTION
  | VALIDAR_EMAIL
  | RESET_PASSWORD
  | PENDING_2FA
  | ACTIVATING_2FA
deriving DecidableEq, Repr

/-- `action.name` of the Python `Enum` member. -/
def JWT_action.nameOf : JWT_action → String
  | .NO_ACTION => "NO_ACTION"
  | .VALIDAR_EMAIL => "VALIDAR_EMAIL"
  | .RESET_PASSWORD => "RESET_PASSWORD"
  | .PENDING_2FA => "PENDING_2FA"
  | .ACTIVATING_2FA => "ACTIVATING_2FA"

/-- `JWT_action[name]` lookup; `none` models the `KeyError` the Python
lookup raises on an unknown member name. -/
def JWT_action.ofName (s : String) : Option JWT_action :=
  if s = "NO_ACTION" then some .NO_ACTION
  else if s = "VALIDAR_EMAIL" then some .VALIDAR_EMAIL
  else if s = "RESET_PASSWORD" then some .RESET_PASSWORD
  else if s = "PENDING_2FA" then some .PENDING_2FA
  else if s = "ACTIVATING_2FA" then some .ACTIVATING_2FA
  else none

/-- The JWT payload dictionary: claims `sub`, `iat`, `nbf`, `exp`,
`action` and `extra_data`, each optional because `jwt.decode` accepts
foreign tokens missing any of them.  `extra_data` is modelled as an
association list of string keys and values, matching the dictionary the
2FA flow stores there. -/
structure JWTPayload where
  sub : Option String := none
  iat : Option Int := none
  nbf : Option Int := none
  exp : Option Int := none
  action : Option String := none
  extra_data : Option (List (String × String)) := none
deriving DecidableEq, Repr

/-- A JWT string: either a well-formed token signed (HS256) with some
key — the signature is idealised as the key itself riding along — or a
string that does not parse as a JWT at all. -/
inductive JWTToken where
  | signed (payload : JWTPayload) (key : String)
  | malformed (raw : String)
deriving DecidableEq, Repr

/-- The dictionary returned by `JWTService.verify`
(`token_service.py`, lines 70-119). -/
structure VerifyResult where
  valid : Bool
  reason : Option String := none
  sub : Option String := none
  action : Option JWT_action := none
  age : Option Int := none
  extra_data : Option (List (String × String)) := none
deriving DecidableEq, Repr

/-- `JWTService.create` (`token_service.py`, lines 29-68) after the
subject has been stringified: builds the payload with `sub`, `iat = nbf
= now`, `exp = now + expires_in` only when `expires_in > 0`, the action
name, and the optional `extra_data`, and signs it with the server key. -/
def JWTService.create (key : String) (action : JWT_action) (subStr : String)
    (now : Int) (expires_in : Int)
    (extra_data : Option (List (String × String))) : JWTToken :=
  JWTToken.signed
    { sub := some subStr
      iat := some now
      nbf := some now
      exp := if 0 < expires_in then some (now + expires_in) else none
      action := some action.nameOf
      extra_data := extra_data }
    key

/-- PyJWT not-before check: `nbf > now` is immature.  Within
`JWTService.verify` (`token_service.py`, lines 70-119), `jwt.decode`
checks the signature, then `nbf`, then `exp`; signature and nbf
failures are caught by the `InvalidTokenError` branch (reason
`"invalid"`), expiry by the `ExpiredSignatureError` branch (reason
`"expired"`).  The service then requires a `sub` claim (reason
`"missing_sub"`) and looks the action name up in `JWT_action`;
`none` models the uncaught `KeyError` that lookup raises when a signed
payload carries an unknown action name. -/
def nbfImmature (now : Int) : Option Int → Bool
  | none => false
  | some n => now < n

/-- PyJWT expiry check with zero leeway: `exp <= now` is expired. -/
def expExpired (now : Int) : Option Int → Bool
  | none => false
  | some e => e ≤ now

/-- `JWTService.verify` of `token_service.py`, lines 70-119; see the
comment on `nbfImmature` above for the PyJWT claim-check order. -/
def JWTService.verify (serverKey : String) (now : Int) (token : JWTToken) :
    Option VerifyResult :=
  match token with
  | .malformed _ => some { valid := false, reason := some "invalid" }
  | .signed p k =>
    if k ≠ serverKey then
      some { valid := false, reason := some "invalid" }
    else if nbfImmature now p.nbf then
      some { valid := false, reason := some "invalid" }
    else if expExpired now p.exp then
      some { valid := false, reason := some "expired" }
    else if p.sub = none then
      some { valid := false, reason := some "missing_sub" }
    else
      match JWT_action.ofName ((p.action).getD "NO_ACTION") with
      | none => none
      | some a =>
        some { valid := true
               sub := p.sub
               action := some a
               age := (p.iat).map (fun i => now - i)
               extra_data := p.extra_data }

/-- A Python object passed as the `sub` argument of `JWTService.create`,
seen through the two observations the source makes of it:
`hasattr(type(sub), '__str__')`, and the outcome of `str(sub)` (`none`
when `__str__` raises).  In Python 3 every type inherits `__str__` from
`object`, so every genuine Python value has `hasStrAttr = true`. -/
structure PyObj where
  hasStrAttr : Bool
  strValue : Option String
deriving DecidableEq, Repr

/-- Outcome of `JWTService.create` on an arbitrary `sub` object. -/
inductive CreateOutcome where
  | token (t : JWTToken)
  | valueError
  | raisedFromStr
deriving DecidableEq, Repr

/-- `JWTService.create` including the subject check of lines 52-57: if
`hasattr(type(sub), '__str__')` fails it raises `ValueError`; otherwise
`str(sub)` is evaluated inside the payload literal, and an exception
raised by `__str__` propagates unwrapped (`raisedFromStr`). -/
def JWTService.create_checked (key : String) (action : JWT_action) (sub : PyObj)
    (now : Int) (expires_in : Int)
    (extra_data : Option (List (String × String))) : CreateOutcome :=
  if ¬ sub.hasStrAttr then
    CreateOutcome.valueError
  else
    match sub.strValue with
    | none => CreateOutcome.raisedFromStr
    | some s => CreateOutcome.token (JWTService.create key action s now expires_in extra_data)

/-- Enumeration `KeepForDays` of `backup2fa_service.py`: the fixed set
of retention windows, in days. -/
inductive KeepForDays where
  | ZERO
  | ONE_WEEK
  | TWO_WEEKS
  | THREE_WEEKS
  | ONE_MONTH
  | TWO_MONTHS
  | THREE_MONTHS
  | SIX_MONTHS
  | ONE_YEAR
deriving DecidableEq, Repr

/-- `.value` of the `KeepForDays` member. -/
def KeepForDays.value : KeepForDays → Nat
  | .ZERO => 0
  | .ONE_WEEK => 7
  | .TWO_WEEKS => 14
  | .THREE_WEEKS => 21
  | .ONE_MONTH => 30
  | .TWO_MONTHS => 60
  | .THREE_MONTHS => 90
  | .SIX_MONTHS => 180
  | .ONE_YEAR => 365

/-- A werkzeug `generate_password_hash` result, idealised as a
collision-free salted hash: the digest component stands for the hash
image of the plaintext, so `check_password_hash` compares it with the
submitted plaintext. -/
structure CodeHash where
  salt : Nat
  digest : String
deriving DecidableEq, Repr

/-- `generate_password_hash(plaintext)` under a given salt. -/
def generate_password_hash (salt : Nat) (plaintext : String) : CodeHash :=
  { salt := salt, digest := plaintext }

/-- `check_password_hash(stored, submitted)` under the ideal-hash model. -/
def check_password_hash (stored : CodeHash) (submitted : String) : Bool :=
  stored.digest == submitted

/-- A row of the `Backup2FA` table (`models/autenticacao.py`): owner,
salted hash of the plaintext code, used flag, use timestamp and
scheduled physical-deletion timestamp. -/
structure Backup2FA where
  usuario_id : Nat
  hash_codigo : CodeHash
  utilizado : Bool
  dta_uso : Option Nat := none
  dta_para_remocao : Option Nat := none
deriving DecidableEq, Repr

/-- The criterion of `_obter_tokens(usuario, unused_only=True)`
(`backup2fa_service.py`, lines 47-49): the row belongs to the user and
is unused. -/
def isUnusedOf (uid : Nat) (c : Backup2FA) : Bool :=
  c.usuario_id == uid && !c.utilizado

/-- The membership test of the `consumir_token` scan: the row belongs to
the user, is unused, and its hash matches the submitted plaintext. -/
def backupMatches (uid : Nat) (token : String) (c : Backup2FA) : Bool :=
  isUnusedOf uid c && check_password_hash c.hash_codigo token

/-- `Backup2FAService._invalidar_codigo` (`backup2fa_service.py`, lines
61-75): marks the row used at `now` and schedules its removal
`days` days (as seconds) later. -/
def invalidateCode (now : Nat) (days : Nat) (c : Backup2FA) : Backup2FA :=
  { c with utilizado := true
           dta_uso := some now
           dta_para_remocao := some (now + days * 86400) }

/-- The row-by-row scan of `consumir_token` (`backup2fa_service.py`,
lines 93-103) over the whole table: the first row of the user that is
unused and whose hash matches is invalidated and the scan stops with
`true`; otherwise the table is unchanged and the result is `false`. -/
def consumeScan (uid : Nat) (token : String) (now : Nat) (days : Nat) :
    List Backup2FA → Bool × List Backup2FA
  | [] => (false, [])
  | c :: rest =>
    if backupMatches uid token c then
      (true, invalidateCode now days c :: rest)
    else
      let r := consumeScan uid token now days rest
      (r.1, c :: r.2)

/-- `Backup2FAService.consumir_token` (`backup2fa_service.py`, lines
77-107). -/
def Backup2FAService.consumir_token (codes : List Backup2FA) (uid : Nat)
    (token : String) (now : Nat) (keep_for_days : KeepForDays) :
    Bool × List Backup2FA :=
  consumeScan uid token now keep_for_days.value codes

/-- `Backup2FAService.contar_tokens_disponiveis` (`backup2fa_service.py`,
lines 109-121): number of unused rows of the user. -/
def Backup2FAService.contar_tokens_disponiveis (codes : List Backup2FA)
    (uid : Nat) : Nat :=
  (codes.filter (isUnusedOf uid)).length

/-- `Backup2FAService.invalidar_codigos` (`backup2fa_service.py`, lines
123-149): marks every unused row of the user used with the retention
horizon, commits, and returns the count; on `SQLAlchemyError`
(`dbFail`) it rolls back and returns 0, swallowing the error. -/
def Backup2FAService.invalidar_codigos (codes : List Backup2FA) (uid : Nat)
    (now : Nat) (keep_for_days : KeepForDays) (dbFail : Bool) :
    Nat × List Backup2FA :=
  if dbFail then
    (0, codes)
  else
    ((codes.filter (isUnusedOf uid)).length,
     codes.map (fun c =>
       if isUnusedOf uid c then
         invalidateCode now keep_for_days.value c
       else c))

/-- The rows inserted for a fresh batch of `quantidade` codes
(`backup2fa_service.py`, lines 170-182): plaintexts drawn from the
random stream `rng`, hashed with salts from `rngSalt`, unused, with no
timestamps. -/
def newBatch (uid : Nat) (quantidade : Nat) (rng : Nat → String)
    (rngSalt : Nat → Nat) : List Backup2FA :=
  (List.range quantidade).map (fun i =>
    { usuario_id := uid
      hash_codigo := generate_password_hash (rngSalt i) (rng i)
      utilizado := false })

/-- `Backup2FAService.gerar_novos_codigos` (`backup2fa_service.py`,
lines 151-189).  It first calls `invalidar_codigos` — which commits in
its own transaction and swallows its own failure (`failInvalidate`) —
then builds and inserts the new batch and commits; a failure of that
second transaction (`failInsert`) rolls the insert back and re-raises
the `SQLAlchemyError`, leaving the already-committed invalidation in
place.  The second component is the table as committed when the call
returns or raises. -/
def Backup2FAService.gerar_novos_codigos (codes : List Backup2FA) (uid : Nat)
    (quantidade : Nat) (rng : Nat → String) (rngSalt : Nat → Nat) (now : Nat)
    (failInvalidate failInsert : Bool) :
    Except Unit (List String) × List Backup2FA :=
  let afterInv :=
    (Backup2FAService.invalidar_codigos codes uid now KeepForDays.ONE_MONTH
      failInvalidate).2
  if failInsert then
    (Except.error (), afterInv)
  else
    (Except.ok ((List.range quantidade).map rng),
     afterInv ++ newBatch uid quantidade rng rngSalt)

/-- The deletion criterion of `remover_codigos_expirados`
(`backup2fa_service.py`, lines 203-205): `dta_para_remocao` is non-null
and not in the future. -/
def isExpired (now : Nat) (c : Backup2FA) : Bool :=
  match c.dta_para_remocao with
  | none => false
  | some d => d ≤ now

/-- `Backup2FAService.remover_codigos_expirados` (`backup2fa_service.py`,
lines 191-212): physically deletes every expired row and returns how
many were deleted. -/
def Backup2FAService.remover_codigos_expirados (codes : List Backup2FA)
    (now : Nat) : Nat × List Backup2FA :=
  ((codes.filter (isExpired now)).length,
   codes.filter (fun c => !isExpired now c))

/-- Enumeration `Autenticacao2FA` of `user_2fa_service.py`. -/
inductive Autenticacao2FA where
  | ENABLED
  | NOT_ENABLED
  | ENABLING
  | ALREADY_ENABLED
  | DISABLED
  | INVALID_CODE
  | REUSED
  | TOTP
  | BACKUP
  | MISSING_TOKEN
  | INVALID_TOKEN
  | WRONG_USER
  | UNKNOWN
deriving DecidableEq, Repr

/-- The columns of the `User` row that the 2FA services read and write.
`otp_secret` is stored through `EncryptedType`; here it carries the
plaintext the service layer sees. -/
structure User where
  id : Nat
  email : String
  usa_2fa : Bool
  otp_secret : Option String
  ultimo_otp : Option String
deriving DecidableEq, Repr

/-- The database state the 2FA flows touch: the user row and the
`Backup2FA` table. -/
structure DBState where
  user : User
  codes : List Backup2FA
deriving DecidableEq, Repr

/-- Dataclass `TwoFAValidationResult` of `user_2fa_service.py`. -/
structure TwoFAValidationResult where
  success : Bool
  method_used : Option Autenticacao2FA
  error_message : Option String
  remaining_backup_codes : Option Nat
  security_warnings : List String
deriving DecidableEq, Repr

/-- Dataclass `TwoFASetupResult` of `user_2fa_service.py` (the `token`
field, used only by `iniciar_ativacao_2fa`, is not modelled because no
claim mentions it). -/
structure TwoFASetupResult where
  status : Autenticacao2FA
  secret : Option String := none
  qr_code_base64 : Option String := none
  backup_codes : Option (List String) := none
  user_id : Option String := none
deriving DecidableEq, Repr

/-- Python truthiness of an optional string: `not x` holds for `None`
and for the empty string. -/
def pyFalsyOpt : Option String → Bool
  | none => true
  | some s => s == ""

/-- `str(x)` of an optional string claim: `str(None)` is the literal
`"None"`. -/
def pyStr (o : Option String) : String := o.getD "None"

/-- `User2FAService.validar_codigo_2fa` (`user_2fa_service.py`, lines
205-308).  `totpVerify secret code` stands for
`pyotp.TOTP(secret).verify(code, valid_window=1)` evaluated at the
moment of the call. -/
def User2FAService.validar_codigo_2fa (totpVerify : String → String → Bool)
    (st : DBState) (codigo : String) (now : Nat) :
    TwoFAValidationResult × DBState :=
  if !st.user.usa_2fa || pyFalsyOpt st.user.otp_secret then
    ({ success := false, method_used := some .NOT_ENABLED,
       error_message := some "2FA não está habilitado para este usuário.",
       remaining_backup_codes := none, security_warnings := [] }, st)
  else if st.user.ultimo_otp == some codigo then
    ({ success := false, method_used := some .REUSED,
       error_message := some "Código 2FA já foi utilizado recentemente.",
       remaining_backup_codes := none,
       security_warnings := ["Atenção: Este código já foi utilizado recentemente."] }, st)
  else if totpVerify (st.user.otp_secret.getD "") codigo then
    let backup_count := Backup2FAService.contar_tokens_disponiveis st.codes st.user.id
    ({ success := true, method_used := some .TOTP, error_message := none,
       remaining_backup_codes := some backup_count,
       security_warnings :=
         if backup_count ≤ 2 then
           ["Poucos códigos de backup restantes: " ++ toString backup_count]
         else [] },
     { st with user := { st.user with ultimo_otp := some codigo } })
  else
    let r := Backup2FAService.consumir_token st.codes st.user.id codigo now
      KeepForDays.ONE_MONTH
    if r.1 then
      let backup_count := Backup2FAService.contar_tokens_disponiveis r.2 st.user.id
      ({ success := true, method_used := some .BACKUP, error_message := none,
         remaining_backup_codes := some backup_count,
         security_warnings :=
           "Código de backup utilizado" ::
             (if backup_count = 0 then
                ["CRÍTICO: Nenhum código de backup restante"]
              else if backup_count ≤ 2 then
                ["ATENÇÃO: Apenas " ++ toString backup_count ++
                  " código(s) de backup restante(s)"]
              else []) },
       { st with codes := r.2 })
    else
      ({ success := false, method_used := some .INVALID_CODE,
         error_message := some "Código 2FA inválido.",
         remaining_backup_codes := none, security_warnings := [] }, st)

/-- `User2FAService.confirmar_ativacao_2fa` (`user_2fa_service.py`,
lines 120-170).  `quantidade_backup` is an `Int` clamped by
`max(0, min(quantidade_backup, 20))`; the backup batch is produced by
`gerar_novos_codigos` with no storage failure injected, so the
`Except.error` arm (the `User2FAError` re-raise) is unreachable here. -/
def User2FAService.confirmar_ativacao_2fa (totpVerify : String → String → Bool)
    (st : DBState) (secret : String) (codigo_confirmacao : String)
    (gerar_backup_codes : Bool) (quantidade_backup : Int)
    (rng : Nat → String) (rngSalt : Nat → Nat) (now : Nat) :
    Except Unit (TwoFASetupResult × DBState) :=
  if st.user.usa_2fa then
    Except.ok ({ status := .ALREADY_ENABLED }, st)
  else if !totpVerify secret codigo_confirmacao then
    Except.ok ({ status := .INVALID_CODE }, st)
  else
    let user' := { st.user with usa_2fa := true
                                otp_secret := some secret
                                ultimo_otp := some codigo_confirmacao }
    if gerar_backup_codes then
      let quantidade := (max 0 (min quantidade_backup 20)).toNat
      match Backup2FAService.gerar_novos_codigos st.codes st.user.id quantidade
        rng rngSalt now false false with
      | (Except.ok plains, codes') =>
        Except.ok ({ status := .ENABLED, backup_codes := some plains },
                   { user := user', codes := codes' })
      | (Except.error _, _) => Except.error ()
    else
      Except.ok ({ status := .ENABLED, backup_codes := none },
                 { user := user', codes := st.codes })

/-- `User2FAService.validar_token_ativacao_2fa` (`user_2fa_service.py`,
lines 373-436).  The `token_sessao` argument is `none` when the session
slot is absent or empty (`if not token_sessao`); the outer `none`
result propagates the `KeyError` of `JWTService.verify` on a signed
payload with an unknown action name. -/
def User2FAService.validar_token_ativacao_2fa (serverKey : String) (now : Int)
    (usuario : User) (token_sessao : Option JWTToken) :
    Option TwoFASetupResult :=
  match token_sessao with
  | none => some { status := .MISSING_TOKEN }
  | some tok =>
    match JWTService.verify serverKey now tok with
    | none => none
    | some dados =>
      if !dados.valid then
        some { status := .INVALID_TOKEN }
      else if dados.action ≠ some JWT_action.ACTIVATING_2FA then
        some { status := .INVALID_TOKEN }
      else
        match dados.extra_data with
        | none => some { status := .INVALID_TOKEN }
        | some ed =>
          if ed = [] then
            some { status := .INVALID_TOKEN }
          else
            let tentative_otp := ed.lookup "tentative_otp"
            let qr_code_base64 := ed.lookup "qr_code_base64"
            if pyFalsyOpt tentative_otp || pyFalsyOpt qr_code_base64 then
              some { status := .INVALID_TOKEN }
            else if toString usuario.id ≠ pyStr dados.sub then
              some { status := .WRONG_USER }
            else
              some { status := .ENABLING, secret := tentative_otp,
                     qr_code_base64 := qr_code_base64, user_id := dados.sub }

/-- The Fernet key material: the configured encryption key and salt; the
derived key is determined by this pair. -/
structure FernetKey where
  encryption_key : String
  salt : String
deriving DecidableEq, Repr

/-- A string sitting in an encrypted column: either the base64 of a
genuine Fernet token produced under some key/salt pair (idealised
authenticated encryption: unforgeable without the key), or any other
string — not base64, or not a valid Fernet token under any key. -/
inductive Stored where
  | enc (k : FernetKey) (plaintext : String)
  | junk (raw : String)
deriving DecidableEq, Repr

/-- Outcome of `EncryptedType.process_result_value`: the decrypted
optional string, or the `ValueError` the method raises when anything in
the base64-decode / `fernet.decrypt` / UTF-8 decode chain fails. -/
inductive ResultValue where
  | ok (v : Option String)
  | decryptionError
deriving DecidableEq, Repr

/-- `EncryptedType.process_bind_param` (`custom_types.py`, lines
108-118) on an optional string value: `None` passes through, a string
is Fernet-encrypted under the configured key and salt.  (The
`TypeError` branch for non-string values is outside the claims and not
modelled.) -/
def EncryptedType.process_bind_param (k : FernetKey) (value : Option String) :
    Option Stored :=
  match value with
  | none => none
  | some s => some (Stored.enc k s)

/-- `EncryptedType.process_result_value` (`custom_types.py`, lines
120-131): `None` passes through; a genuine token under the same key and
salt decrypts to its plaintext; any other stored string makes the
decode chain raise, which the method converts to `ValueError`. -/
def EncryptedType.process_result_value (k : FernetKey) (value : Option Stored) :
    ResultValue :=
  match value with
  | none => ResultValue.ok none
  | some (Stored.enc k' p) =>
    if k' = k then ResultValue.ok (some p) else ResultValue.decryptionError
  | some (Stored.junk _) => ResultValue.decryptionError

/-- A concrete TOTP oracle accepting every code, for witnesses. -/
def tvAccept : String → String → Bool := fun _ _ => true

/-- A concrete TOTP oracle rejecting every code, for witnesses. -/
def tvReject : String → String → Bool := fun _ _ => false

/-- A concrete random-code stream for witnesses. -/
def rngW : Nat → String
  | 0 => "Abcd22"
  | 1 => "Efgh23"
  | _ => "Jkmn24"

/-- A concrete salt stream for witnesses. -/
def saltW : Nat → Nat := fun i => i

/-- A concrete used backup row whose physical deletion is overdue at
time 100, for witnesses. -/
def expiredRow : Backup2FA :=
  { usuario_id := 1, hash_codigo := generate_password_hash 0 "Aaaa22",
    utilizado := true, dta_uso := some 1, dta_para_remocao := some 99 }

/-- A concrete used backup row scheduled for deletion in the future at
time 100, for witnesses. -/
def futureRow : Backup2FA :=
  { usuario_id := 1, hash_codigo := generate_password_hash 0 "Bbbb22",
    utilizado := true, dta_uso := some 1, dta_para_remocao := some 101 }

/-- A concrete never-used backup row, for witnesses. -/
def freshRow : Backup2FA :=
  { usuario_id := 1, hash_codigo := generate_password_hash 0 "Dddd22",
    utilizado := false }

/-- A concrete enabled-2FA user, for witnesses. -/
def userW : User :=
  { id := 7, email := "user@example.com", usa_2fa := true,
    otp_secret := some "JBSWY3DPEHPK3PXP", ultimo_otp := some "111111" }

/-- A concrete database state for witnesses: `userW` plus one unused
backup code of that user. -/
def stW : DBState :=
  { user := userW,
    codes := [{ usuario_id := 7, hash_codigo := generate_password_hash 5 "Bkup22",
                utilizado := false }] }

theorem JWT_action.ofName_nameOf (a : JWT_action) :
    JWT_action.ofName a.nameOf = some a := by
  cases a <;> rfl

/-- C7: `remover_codigos_expirados` deletes exactly the backup codes
whose `dta_para_remocao` is non-null and at most the current time,
returns their number, leaves every code with a null or future
`dta_para_remocao` in place, and running it again immediately deletes
nothing. -/
theorem remover_codigos_expirados_exact (codes : List Backup2FA) (now : Nat) :
    (Backup2FAService.remover_codigos_expirados codes now).1
      = (codes.filter (isExpired now)).length ∧
    (Backup2FAService.remover_codigos_expirados codes now).2
      = codes.filter (fun c => !isExpired now c) ∧
    (∀ c : Backup2FA,
      (isExpired now c = true ↔ ∃ d, c.dta_para_remocao = some d ∧ d ≤ now)) ∧
    (∀ c ∈ codes, isExpired now c = false →
      c ∈ (Backup2FAService.remover_codigos_expirados codes now).2) ∧
    Backup2FAService.remover_codigos_expirados
        (Backup2FAService.remover_codigos_expirados codes now).2 now
      = (0, (Backup2FAService.remover_codigos_expirados codes now).2) := by
  refine ⟨rfl, rfl, ?_, ?_, ?_⟩
  · intro c
    unfold isExpired
    cases h : c.dta_para_remocao with
    | none => simp
    | some d => simp [decide_eq_true_iff]
  · intro c hc hexp
    simp only [Backup2FAService.remover_codigos_expirados, List.mem_filter]
    exact ⟨hc, by simp [hexp]⟩
  · unfold Backup2FAService.remover_codigos_expirados
    have h : (codes.filter (fun c => !isExpired now c)).filter (isExpired now) = [] := by
      rw [List.filter_filter]
      apply List.filter_eq_nil_iff.2
      intro c _
      cases isExpired now c <;> simp
    have h2 : (codes.filter (fun c => !isExpired now c)).filter
        (fun c => !isExpired now c) = codes.filter (fun c => !isExpired now c) := by
      rw [List.filter_filter]
      apply List.filter_congr
      intro c _
      cases isExpired now c <;> simp
    simp [h, h2]

/-- C7 witness: one code scheduled in the past, one in the future, one
never used; exactly the first is removed and a second run removes
nothing. -/
theorem remover_codigos_expirados_exact_witness :
    (Backup2FAService.remover_codigos_expirados
        [expiredRow, futureRow, freshRow] 100).1 = 1 ∧
    isExpired 100 expiredRow = true := by
  have h := remover_codigos_expirados_exact [expiredRow, futureRow, freshRow] 100
  refine ⟨by rw [h.1]; rfl, ?_⟩
  exact (h.2.2.1 expiredRow).2 ⟨99, rfl, by decide⟩

/-- C8: decrypting the encryption of any non-empty string under the
configured key and salt returns that string, and decrypting any stored
string that was not produced by encryption under that same key and salt
ends in the decryption `ValueError`, never in a plaintext. -/
theorem encryptedType_roundtrip_and_reject (k : FernetKey) (s : String)
    (_hs : s ≠ "") :
    EncryptedType.process_result_value k
        (EncryptedType.process_bind_param k (some s))
      = ResultValue.ok (some s) ∧
    (∀ st : Stored, (∀ p, st ≠ Stored.enc k p) →
      EncryptedType.process_result_value k (some st)
        = ResultValue.decryptionError) := by
  constructor
  · simp [EncryptedType.process_bind_param, EncryptedType.process_result_value]
  · intro st h
    cases st with
    | enc k' p =>
      have hk : ¬ k' = k := fun e => h p (by rw [e])
      simp [EncryptedType.process_result_value, hk]
    | junk r => rfl

/-- C8 witness at a concrete key, plaintext and tampered ciphertext. -/
theorem encryptedType_roundtrip_witness :
    EncryptedType.process_result_value { encryption_key := "KEY", salt := "SALT" }
        (EncryptedType.process_bind_param { encryption_key := "KEY", salt := "SALT" }
          (some "JBSWY3DP"))
      = ResultValue.ok (some "JBSWY3DP") ∧
    EncryptedType.process_result_value { encryption_key := "KEY", salt := "SALT" }
        (some (Stored.junk "tampered-bytes"))
      = ResultValue.decryptionError := by
  have h := encryptedType_roundtrip_and_reject
    { encryption_key := "KEY", salt := "SALT" } "JBSWY3DP" (by decide)
  exact ⟨h.1, h.2 (Stored.junk "tampered-bytes") (fun p => by simp)⟩

/-- C9: the `InvalidSubject` `ValueError` of `JWTService.create` is
unreachable for genuine Python subjects, because
`hasattr(type(sub), '__str__')` holds for every Python type; a subject
whose `__str__` raises makes `create` propagate that exception instead
of the documented `ValueError`, while every subject whose `str`
succeeds — `None` included, with string form `"None"` — yields a signed
token whose `sub` claim is that string form. -/
theorem create_invalidSubject_unreachable (key : String) (a : JWT_action)
    (now expires_in : Int) (extra : Option (List (String × String))) :
    (∀ sub : PyObj, sub.hasStrAttr = true →
      JWTService.create_checked key a sub now expires_in extra
        ≠ CreateOutcome.valueError) ∧
    JWTService.create_checked key a { hasStrAttr := true, strValue := none }
        now expires_in extra = CreateOutcome.raisedFromStr ∧
    (∀ sub : PyObj, ∀ s : String, sub.hasStrAttr = true → sub.strValue = some s →
      JWTService.create_checked key a sub now expires_in extra
        = CreateOutcome.token (JWTService.create key a s now expires_in extra)) ∧
    JWTService.create_checked key a { hasStrAttr := true, strValue := some "None" }
        now expires_in extra
      = CreateOutcome.token (JWTService.create key a "None" now expires_in extra) := by
  refine ⟨?_, rfl, ?_, rfl⟩
  · intro sub hattr
    unfold JWTService.create_checked
    simp only [hattr]
    cases sub.strValue <;> simp
  · intro sub s hattr hstr
    unfold JWTService.create_checked
    simp [hattr, hstr]

/-- C9 witness: the concrete subject whose `__str__` raises, and the
concrete `None` subject. -/
theorem create_invalidSubject_unreachable_witness :
    JWTService.create_checked "k" JWT_action.NO_ACTION
        { hasStrAttr := true, strValue := none } 100 600 none
      ≠ CreateOutcome.valueError ∧
    JWTService.create_checked "k" JWT_action.NO_ACTION
        { hasStrAttr := true, strValue := some "None" } 100 600 none
      = CreateOutcome.token (JWTService.create "k" JWT_action.NO_ACTION "None" 100 600 none) := by
  have h := create_invalidSubject_unreachable "k" JWT_action.NO_ACTION 100 600 none
  exact ⟨h.1 _ rfl, h.2.2.1 _ "None" rfl rfl⟩

/-- C2: for every action, subject string form, positive ttl and extra
data, verifying strictly before `ttl` seconds have elapsed returns the
valid claims with the issued subject and action; from `ttl` seconds
after issuance on, verification returns an invalid (expired) result. -/
theorem verify_after_create (key : String) (a : JWT_action) (sub : String)
    (ttl : Int) (extra : Option (List (String × String))) (iat now : Int)
    (httl : 0 < ttl) :
    (iat ≤ now → now < iat + ttl →
      JWTService.verify key now (JWTService.create key a sub iat ttl extra)
        = some { valid := true, sub := some sub, action := some a,
                 age := some (now - iat), extra_data := extra }) ∧
    (iat + ttl ≤ now →
      JWTService.verify key now (JWTService.create key a sub iat ttl extra)
        = some { valid := false, reason := some "expired" }) := by
  constructor
  · intro h1 h2
    have hnbf : nbfImmature now (some iat) = false := by
      simp [nbfImmature]; omega
    have hexp : expExpired now (some (iat + ttl)) = false := by
      simp [expExpired]; omega
    simp [JWTService.create, JWTService.verify, httl, hnbf, hexp,
      JWT_action.ofName_nameOf]
  · intro h1
    have hnbf : nbfImmature now (some iat) = false := by
      simp [nbfImmature]; omega
    have hexp : expExpired now (some (iat + ttl)) = true := by
      simp [expExpired]; omega
    simp [JWTService.create, JWTService.verify, httl, hnbf, hexp]

/-- C2 witness: a token issued at 100 with ttl 90, verified at 150
(valid, matching claims) and at 190 (expired). -/
theorem verify_after_create_witness :
    JWTService.verify "k" 150
        (JWTService.create "k" JWT_action.ACTIVATING_2FA "7" 100 90
          (some [("tentative_otp", "T"), ("qr_code_base64", "Q")]))
      = some { valid := true, sub := some "7",
               action := some JWT_action.ACTIVATING_2FA, age := some 50,
               extra_data := some [("tentative_otp", "T"), ("qr_code_base64", "Q")] } ∧
    JWTService.verify "k" 190
        (JWTService.create "k" JWT_action.ACTIVATING_2FA "7" 100 90
          (some [("tentative_otp", "T"), ("qr_code_base64", "Q")]))
      = some { valid := false, reason := some "expired" } := by
  have h1 := verify_after_create "k" JWT_action.ACTIVATING_2FA "7" 90
    (some [("tentative_otp", "T"), ("qr_code_base64", "Q")]) 100 150 (by decide)
  have h2 := verify_after_create "k" JWT_action.ACTIVATING_2FA "7" 90
    (some [("tentative_otp", "T"), ("qr_code_base64", "Q")]) 100 190 (by decide)
  exact ⟨h1.1 (by decide) (by decide), h2.2 (by decide)⟩

theorem backupMatches_invalidate (uid : Nat) (token : String) (now days : Nat)
    (c : Backup2FA) :
    backupMatches uid token (invalidateCode now days c) = false := by
  simp [backupMatches, isUnusedOf, invalidateCode]

theorem consumeScan_fst (uid : Nat) (token : String) (now days : Nat)
    (codes : List Backup2FA) :
    (consumeScan uid token now days codes).1
      = codes.any (backupMatches uid token) := by
  induction codes with
  | nil => rfl
  | cons c rest ih =>
    by_cases h : backupMatches uid token c = true
    · simp [consumeScan, h]
    · rw [Bool.not_eq_true] at h
      simp [consumeScan, h, ih]

theorem consumeScan_no_match (uid : Nat) (token : String) (now days : Nat)
    (codes : List Backup2FA)
    (h : codes.any (backupMatches uid token) = false) :
    consumeScan uid token now days codes = (false, codes) := by
  induction codes with
  | nil => rfl
  | cons c rest ih =>
    simp only [List.any_cons, Bool.or_eq_false_iff] at h
    simp [consumeScan, h.1, ih h.2]

theorem consumeScan_found (uid : Nat) (token : String) (now days : Nat)
    (codes : List Backup2FA)
    (h : (consumeScan uid token now days codes).1 = true) :
    ∃ l1 c l2, codes = l1 ++ c :: l2 ∧
      l1.any (backupMatches uid token) = false ∧
      backupMatches uid token c = true ∧
      (consumeScan uid token now days codes).2
        = l1 ++ invalidateCode now days c :: l2 := by
  induction codes with
  | nil => simp [consumeScan] at h
  | cons c rest ih =>
    by_cases hc : backupMatches uid token c = true
    · exact ⟨[], c, rest, rfl, rfl, hc, by simp [consumeScan, hc]⟩
    · rw [Bool.not_eq_true] at hc
      have h' : (consumeScan uid token now days rest).1 = true := by
        simpa [consumeScan, hc] using h
      obtain ⟨l1, c0, l2, e1, e2, e3, e4⟩ := ih h'
      refine ⟨c :: l1, c0, l2, by rw [e1]; rfl, ?_, e3, ?_⟩
      · simp [e2, hc]
      · simp [consumeScan, hc, e4]

theorem consumeScan_countP (uid : Nat) (token : String) (now days : Nat)
    (codes : List Backup2FA)
    (h : (consumeScan uid token now days codes).1 = true) :
    ((consumeScan uid token now days codes).2).countP (backupMatches uid token)
      = codes.countP (backupMatches uid token) - 1 := by
  obtain ⟨l1, c, l2, e1, _, e3, e4⟩ := consumeScan_found uid token now days codes h
  subst e1
  rw [e4, List.countP_append, List.countP_cons, List.countP_append, List.countP_cons]
  simp [e3, backupMatches_invalidate]

theorem any_eq_false_of_countP_zero (p : Backup2FA → Bool) (l : List Backup2FA)
    (h : l.countP p = 0) : l.any p = false := by
  cases hb : l.any p with
  | false => rfl
  | true =>
    rw [List.any_eq_true] at hb
    obtain ⟨x, hx, hpx⟩ := hb
    have := List.countP_eq_zero.1 h x hx
    simp [hpx] at this

theorem invalidar_snd (codes : List Backup2FA) (uid now : Nat)
    (keep : KeepForDays) :
    (Backup2FAService.invalidar_codigos codes uid now keep false).2
      = codes.map (fun c =>
          if isUnusedOf uid c then invalidateCode now keep.value c else c) := rfl

theorem invalidar_all_used (codes : List Backup2FA) (uid now : Nat)
    (keep : KeepForDays) :
    ∀ x ∈ (Backup2FAService.invalidar_codigos codes uid now keep false).2,
      isUnusedOf uid x = false := by
  intro x hx
  rw [invalidar_snd] at hx
  obtain ⟨c, _, rfl⟩ := List.mem_map.1 hx
  by_cases h : isUnusedOf uid c = true
  · rw [if_pos h]
    simp [isUnusedOf, invalidateCode]
  · rw [Bool.not_eq_true] at h
    simp [h]

theorem gerar_snd (codes : List Backup2FA) (uid q : Nat) (rng : Nat → String)
    (rngSalt : Nat → Nat) (now : Nat) :
    (Backup2FAService.gerar_novos_codigos codes uid q rng rngSalt now false false).2
      = (Backup2FAService.invalidar_codigos codes uid now KeepForDays.ONE_MONTH false).2
          ++ newBatch uid q rng rngSalt := rfl

theorem gerar_unused_is_newBatch (codes : List Backup2FA) (uid q : Nat)
    (rng : Nat → String) (rngSalt : Nat → Nat) (now : Nat) :
    ((Backup2FAService.gerar_novos_codigos codes uid q rng rngSalt now false false).2).filter
      (isUnusedOf uid) = newBatch uid q rng rngSalt := by
  rw [gerar_snd, List.filter_append]
  have h1 : ((Backup2FAService.invalidar_codigos codes uid now
      KeepForDays.ONE_MONTH false).2).filter (isUnusedOf uid) = [] := by
    apply List.filter_eq_nil_iff.2
    intro x hx
    simp [invalidar_all_used codes uid now KeepForDays.ONE_MONTH x hx]
  have h2 : (newBatch uid q rng rngSalt).filter (isUnusedOf uid)
      = newBatch uid q rng rngSalt := by
    apply List.filter_eq_self.2
    intro x hx
    obtain ⟨i, _, rfl⟩ := List.mem_map.1 hx
    simp [isUnusedOf]
  rw [h1, h2, List.nil_append]

theorem gerar_countP (codes : List Backup2FA) (uid q : Nat) (rng : Nat → String)
    (rngSalt : Nat → Nat) (now i : Nat) (hi : i < q)
    (hinj : ∀ a b, a < q → b < q → rng a = rng b → a = b) :
    ((Backup2FAService.gerar_novos_codigos codes uid q rng rngSalt now false false).2).countP
      (backupMatches uid (rng i)) = 1 := by
  rw [gerar_snd, List.countP_append]
  have h1 : ((Backup2FAService.invalidar_codigos codes uid now
      KeepForDays.ONE_MONTH false).2).countP (backupMatches uid (rng i)) = 0 := by
    rw [List.countP_eq_zero]
    intro x hx
    simp [backupMatches, invalidar_all_used codes uid now KeepForDays.ONE_MONTH x hx]
  have h2 : (newBatch uid q rng rngSalt).countP (backupMatches uid (rng i)) = 1 := by
    unfold newBatch
    rw [List.countP_map]
    have hcg : ∀ j ∈ List.range q,
        ((backupMatches uid (rng i) ∘ (fun j =>
          ({ usuario_id := uid,
             hash_codigo := generate_password_hash (rngSalt j) (rng j),
             utilizado := false } : Backup2FA))) j = true ↔ (j == i) = true) := by
      intro j hj
      have hjq := List.mem_range.1 hj
      by_cases h : j = i
      · subst h
        simp [Function.comp, backupMatches, isUnusedOf, check_password_hash,
          generate_password_hash]
      · have hne : rng j ≠ rng i := fun e => h (hinj j i hjq hi e)
        simp [Function.comp, backupMatches, isUnusedOf, check_password_hash,
          generate_password_hash, h, hne]
    rw [List.countP_congr hcg]
    have : (List.range q).countP (fun j => j == i) = (List.range q).count i := rfl
    rw [this]
    exact List.count_eq_one_of_mem (List.nodup_range q) (List.mem_range.2 hi)
  rw [h1, h2]

/-- C5: each plaintext produced by `gerar_novos_codigos` (with a
non-repeating random stream) is consumable exactly once.  The first
`consumir_token` call with it succeeds and invalidates exactly the
matched row — marking it used and stamping the deletion horizon
`now + days * 86400`, with the window drawn from the fixed `KeepForDays`
set whose default `ONE_MONTH` is 30 — and a second call with the same
plaintext returns false and leaves the table unchanged; a plaintext
matching no unused stored hash returns false with no mutation. -/
theorem consumir_token_exactly_once
    (codes : List Backup2FA) (uid q : Nat) (rng : Nat → String)
    (rngSalt : Nat → Nat) (now now1 now2 : Nat) (d1 d2 : KeepForDays)
    (plains : List String) (codes' : List Backup2FA) (p : String)
    (hinj : ∀ a b, a < q → b < q → rng a = rng b → a = b)
    (hgen : Backup2FAService.gerar_novos_codigos codes uid q rng rngSalt now
              false false = (Except.ok plains, codes'))
    (hp : p ∈ plains) :
    (Backup2FAService.consumir_token codes' uid p now1 d1).1 = true ∧
    Backup2FAService.consumir_token
        (Backup2FAService.consumir_token codes' uid p now1 d1).2 uid p now2 d2
      = (false, (Backup2FAService.consumir_token codes' uid p now1 d1).2) ∧
    (∃ l1 c l2, codes' = l1 ++ c :: l2 ∧
      backupMatches uid p c = true ∧
      (Backup2FAService.consumir_token codes' uid p now1 d1).2
        = l1 ++ invalidateCode now1 d1.value c :: l2 ∧
      (invalidateCode now1 d1.value c).utilizado = true ∧
      (invalidateCode now1 d1.value c).dta_para_remocao
        = some (now1 + d1.value * 86400)) ∧
    (∀ cs : List Backup2FA, ∀ tok : String,
      cs.countP (backupMatches uid tok) = 0 →
      Backup2FAService.consumir_token cs uid tok now1 d1 = (false, cs)) ∧
    KeepForDays.ONE_MONTH.value = 30 := by
  rw [Prod.ext_iff] at hgen
  obtain ⟨h1, h2⟩ := hgen
  have hpl : plains = (List.range q).map rng := by
    have h1' : Except.ok ((List.range q).map rng) = Except.ok plains := h1
    exact (Except.ok.inj h1').symm
  subst h2
  subst hpl
  obtain ⟨i, hir, rfl⟩ := List.mem_map.1 hp
  have hiq := List.mem_range.1 hir
  have hcount := gerar_countP codes uid q rng rngSalt now i hiq hinj
  have hfst : (Backup2FAService.consumir_token
      (Backup2FAService.gerar_novos_codigos codes uid q rng rngSalt now
        false false).2 uid (rng i) now1 d1).1 = true := by
    rw [Backup2FAService.consumir_token, consumeScan_fst]
    rw [List.any_eq_true]
    exact List.countP_pos_iff.1 (by omega)
  have hzero : ((Backup2FAService.consumir_token
      (Backup2FAService.gerar_novos_codigos codes uid q rng rngSalt now
        false false).2 uid (rng i) now1 d1).2).countP
      (backupMatches uid (rng i)) = 0 := by
    rw [Backup2FAService.consumir_token] at hfst ⊢
    rw [consumeScan_countP _ _ _ _ _ hfst, hcount]
  refine ⟨hfst, ?_, ?_, ?_, rfl⟩
  · rw [Backup2FAService.consumir_token]
    exact consumeScan_no_match _ _ _ _ _
      (any_eq_false_of_countP_zero _ _ hzero)
  · obtain ⟨l1, c, l2, e1, _, e3, e4⟩ := consumeScan_found uid (rng i) now1
      d1.value _ hfst
    exact ⟨l1, c, l2, e1, e3, e4, rfl, rfl⟩
  · intro cs tok hcs
    rw [Backup2FAService.consumir_token]
    exact consumeScan_no_match _ _ _ _ _
      (any_eq_false_of_countP_zero _ _ hcs)

/-- C5 witness: a fresh batch of two codes for user 1; the plaintext
`"Abcd22"` is consumed once, then rejected. -/
theorem consumir_token_exactly_once_witness :
    (Backup2FAService.consumir_token
        [{ usuario_id := 1, hash_codigo := generate_password_hash 0 "Abcd22",
           utilizado := false },
         { usuario_id := 1, hash_codigo := generate_password_hash 1 "Efgh23",
           utilizado := false }] 1 "Abcd22" 60 KeepForDays.ONE_MONTH).1 = true ∧
    Backup2FAService.consumir_token
        (Backup2FAService.consumir_token
          [{ usuario_id := 1, hash_codigo := generate_password_hash 0 "Abcd22",
             utilizado := false },
           { usuario_id := 1, hash_codigo := generate_password_hash 1 "Efgh23",
             utilizado := false }] 1 "Abcd22" 60 KeepForDays.ONE_MONTH).2
        1 "Abcd22" 70 KeepForDays.ONE_MONTH
      = (false, (Backup2FAService.consumir_token
          [{ usuario_id := 1, hash_codigo := generate_password_hash 0 "Abcd22",
             utilizado := false },
           { usuario_id := 1, hash_codigo := generate_password_hash 1 "Efgh23",
             utilizado := false }] 1 "Abcd22" 60 KeepForDays.ONE_MONTH).2) := by
  have h := consumir_token_exactly_once [] 1 2 rngW saltW 50 60 70
    KeepForDays.ONE_MONTH KeepForDays.ONE_MONTH ["Abcd22", "Efgh23"]
    [{ usuario_id := 1, hash_codigo := generate_password_hash 0 "Abcd22",
       utilizado := false },
     { usuario_id := 1, hash_codigo := generate_password_hash 1 "Efgh23",
       utilizado := false }] "Abcd22"
    (by
      intro a b ha hb hab
      interval_cases a <;> interval_cases b <;>
        first
        | rfl
        | exact absurd hab (by decide))
    (by rfl)
    (by decide)
  exact ⟨h.1, h.2.1⟩

/-- C6 (amended): `gerar_novos_codigos` first invalidates every unused
code of the owner (marks used, schedules deletion, deletes nothing),
committing that in its own transaction, then inserts the `quantidade`
new codes in a second transaction and returns their plaintexts; after a
successful call the owner's unused codes are exactly the new batch.  On
an insert failure it raises with the invalidation already committed —
the old codes stay invalidated instead of being rolled back — and on an
invalidation failure the error is swallowed and the new batch is still
inserted next to the old, still-unused codes. -/
theorem gerar_novos_codigos_behaviour (codes : List Backup2FA) (uid q : Nat)
    (rng : Nat → String) (rngSalt : Nat → Nat) (now : Nat) :
    Backup2FAService.gerar_novos_codigos codes uid q rng rngSalt now false false
      = (Except.ok ((List.range q).map rng),
         (Backup2FAService.invalidar_codigos codes uid now
            KeepForDays.ONE_MONTH false).2 ++ newBatch uid q rng rngSalt) ∧
    ((Backup2FAService.gerar_novos_codigos codes uid q rng rngSalt now
        false false).2).filter (isUnusedOf uid) = newBatch uid q rng rngSalt ∧
    (newBatch uid q rng rngSalt).length = q ∧
    Backup2FAService.gerar_novos_codigos codes uid q rng rngSalt now false true
      = (Except.error (),
         (Backup2FAService.invalidar_codigos codes uid now
            KeepForDays.ONE_MONTH false).2) ∧
    Backup2FAService.gerar_novos_codigos codes uid q rng rngSalt now true false
      = (Except.ok ((List.range q).map rng),
         codes ++ newBatch uid q rng rngSalt) := by
  refine ⟨rfl, gerar_unused_is_newBatch codes uid q rng rngSalt now, ?_, rfl, rfl⟩
  simp [newBatch]

/-- C6 counterexample: with one unused code of user 1 in store, a
storage failure while inserting the new batch makes
`gerar_novos_codigos` raise, yet the table committed by the call
differs from the table before it (the old code is already marked used),
so the operation is not all-or-nothing on storage failure. -/
theorem gerar_novos_codigos_not_all_or_nothing :
    (Backup2FAService.gerar_novos_codigos [freshRow] 1 2 rngW saltW 100
        false true).1 = Except.error () ∧
    (Backup2FAService.gerar_novos_codigos [freshRow] 1 2 rngW saltW 100
        false true).2 ≠ [freshRow] := by
  exact ⟨rfl, by decide⟩

theorem validar_reused_helper (tv : String → String → Bool) (st : DBState)
    (codigo : String) (now : Nat)
    (h2fa : st.user.usa_2fa = true)
    (hsec : pyFalsyOpt st.user.otp_secret = false)
    (hlast : st.user.ultimo_otp = some codigo) :
    User2FAService.validar_codigo_2fa tv st codigo now
      = ({ success := false, method_used := some .REUSED,
           error_message := some "Código 2FA já foi utilizado recentemente.",
           remaining_backup_codes := none,
           security_warnings :=
             ["Atenção: Este código já foi utilizado recentemente."] }, st) := by
  simp [User2FAService.validar_codigo_2fa, h2fa, hsec, hlast]

theorem validar_totp_shape (tv : String → String → Bool) (st : DBState)
    (codigo : String) (now : Nat) (r : TwoFAValidationResult) (st' : DBState)
    (heq : User2FAService.validar_codigo_2fa tv st codigo now = (r, st'))
    (hm : r.method_used = some Autenticacao2FA.TOTP) :
    st' = { st with user := { st.user with ultimo_otp := some codigo } } ∧
    st.user.usa_2fa = true ∧ pyFalsyOpt st.user.otp_secret = false := by
  by_cases hena : (!st.user.usa_2fa || pyFalsyOpt st.user.otp_secret) = true
  · simp [User2FAService.validar_codigo_2fa, hena, Prod.mk.injEq] at heq
    rw [← heq.1] at hm
    simp at hm
  · rw [Bool.not_eq_true, Bool.or_eq_false_iff] at hena
    obtain ⟨h2fa, hsec⟩ := hena
    rw [Bool.not_eq_false'] at h2fa
    by_cases hlast : (st.user.ultimo_otp == some codigo) = true
    · simp [User2FAService.validar_codigo_2fa, h2fa, hsec, hlast,
        Prod.mk.injEq] at heq
      rw [← heq.1] at hm
      simp at hm
    · rw [Bool.not_eq_true] at hlast
      by_cases htotp : tv (st.user.otp_secret.getD "") codigo = true
      · simp [User2FAService.validar_codigo_2fa, h2fa, hsec, hlast, htotp,
          Prod.mk.injEq] at heq
        refine ⟨?_, h2fa, hsec⟩
        rw [← heq.2]
        simp [h2fa]
      · rw [Bool.not_eq_true] at htotp
        by_cases hcons : (Backup2FAService.consumir_token st.codes st.user.id
            codigo now KeepForDays.ONE_MONTH).1 = true
        · simp [User2FAService.validar_codigo_2fa, h2fa, hsec, hlast, htotp,
            hcons, Prod.mk.injEq] at heq
          rw [← heq.1] at hm
          simp at hm
        · rw [Bool.not_eq_true] at hcons
          simp [User2FAService.validar_codigo_2fa, h2fa, hsec, hlast, htotp,
            hcons, Prod.mk.injEq] at heq
          rw [← heq.1] at hm
          simp at hm

theorem validar_backup_shape (tv : String → String → Bool) (st : DBState)
    (codigo : String) (now : Nat) (r : TwoFAValidationResult) (st' : DBState)
    (heq : User2FAService.validar_codigo_2fa tv st codigo now = (r, st'))
    (hm : r.method_used = some Autenticacao2FA.BACKUP) :
    st'.user = st.user ∧
    st'.codes = (Backup2FAService.consumir_token st.codes st.user.id codigo now
      KeepForDays.ONE_MONTH).2 ∧
    (Backup2FAService.consumir_token st.codes st.user.id codigo now
      KeepForDays.ONE_MONTH).1 = true ∧
    st.user.usa_2fa = true ∧ pyFalsyOpt st.user.otp_secret = false := by
  by_cases hena : (!st.user.usa_2fa || pyFalsyOpt st.user.otp_secret) = true
  · simp [User2FAService.validar_codigo_2fa, hena, Prod.mk.injEq] at heq
    rw [← heq.1] at hm
    simp at hm
  · rw [Bool.not_eq_true, Bool.or_eq_false_iff] at hena
    obtain ⟨h2fa, hsec⟩ := hena
    rw [Bool.not_eq_false'] at h2fa
    by_cases hlast : (st.user.ultimo_otp == some codigo) = true
    · simp [User2FAService.validar_codigo_2fa, h2fa, hsec, hlast,
        Prod.mk.injEq] at heq
      rw [← heq.1] at hm
      simp at hm
    · rw [Bool.not_eq_true] at hlast
      by_cases htotp : tv (st.user.otp_secret.getD "") codigo = true
      · simp [User2FAService.validar_codigo_2fa, h2fa, hsec, hlast, htotp,
          Prod.mk.injEq] at heq
        rw [← heq.1] at hm
        simp at hm
      · rw [Bool.not_eq_true] at htotp
        by_cases hcons : (Backup2FAService.consumir_token st.codes st.user.id
            codigo now KeepForDays.ONE_MONTH).1 = true
        · simp [User2FAService.validar_codigo_2fa, h2fa, hsec, hlast, htotp,
            hcons, Prod.mk.injEq] at heq
          exact ⟨by rw [← heq.2], by rw [← heq.2], hcons, h2fa, hsec⟩
        · rw [Bool.not_eq_true] at hcons
          simp [User2FAService.validar_codigo_2fa, h2fa, hsec, hlast, htotp,
            hcons, Prod.mk.injEq] at heq
          rw [← heq.1] at hm
          simp at hm

theorem validar_non_totp_marker (tv : String → String → Bool) (st : DBState)
    (codigo : String) (now : Nat) (r : TwoFAValidationResult) (st' : DBState)
    (heq : User2FAService.validar_codigo_2fa tv st codigo now = (r, st'))
    (hm : r.method_used ≠ some Autenticacao2FA.TOTP) :
    st'.user.ultimo_otp = st.user.ultimo_otp ∧
    st'.user.otp_secret = st.user.otp_secret := by
  by_cases hena : (!st.user.usa_2fa || pyFalsyOpt st.user.otp_secret) = true
  · simp [User2FAService.validar_codigo_2fa, hena, Prod.mk.injEq] at heq
    rw [← heq.2]
    exact ⟨rfl, rfl⟩
  · rw [Bool.not_eq_true, Bool.or_eq_false_iff] at hena
    obtain ⟨h2fa, hsec⟩ := hena
    rw [Bool.not_eq_false'] at h2fa
    by_cases hlast : (st.user.ultimo_otp == some codigo) = true
    · simp [User2FAService.validar_codigo_2fa, h2fa, hsec, hlast,
        Prod.mk.injEq] at heq
      rw [← heq.2]
      exact ⟨rfl, rfl⟩
    · rw [Bool.not_eq_true] at hlast
      by_cases htotp : tv (st.user.otp_secret.getD "") codigo = true
      · simp [User2FAService.validar_codigo_2fa, h2fa, hsec, hlast, htotp,
          Prod.mk.injEq] at heq
        rw [← heq.1] at hm
        simp at hm
      · rw [Bool.not_eq_true] at htotp
        by_cases hcons : (Backup2FAService.consumir_token st.codes st.user.id
            codigo now KeepForDays.ONE_MONTH).1 = true
        · simp [User2FAService.validar_codigo_2fa, h2fa, hsec, hlast, htotp,
            hcons, Prod.mk.injEq] at heq
          rw [← heq.2]
          exact ⟨rfl, rfl⟩
        · rw [Bool.not_eq_true] at hcons
          simp [User2FAService.validar_codigo_2fa, h2fa, hsec, hlast, htotp,
            hcons, Prod.mk.injEq] at heq
          rw [← heq.2]
          exact ⟨rfl, rfl⟩

/-- C1: for a user with 2FA enabled (flag set and a usable stored
secret), submitting the code stored in `ultimo_otp` verbatim returns
`REUSED` with no state change; and whenever a call validates a code by
TOTP — which records that code in `ultimo_otp` — an immediately
following call with the same code returns `REUSED` (and hence never
TOTP twice in a row), also without mutating state. -/
theorem validar_codigo_reused_antireplay
    (tv tv2 : String → String → Bool) (st : DBState)
    (codigo : String) (now now2 : Nat)
    (h2fa : st.user.usa_2fa = true)
    (hsec : pyFalsyOpt st.user.otp_secret = false) :
    (st.user.ultimo_otp = some codigo →
      User2FAService.validar_codigo_2fa tv st codigo now
        = ({ success := false, method_used := some .REUSED,
             error_message := some "Código 2FA já foi utilizado recentemente.",
             remaining_backup_codes := none,
             security_warnings :=
               ["Atenção: Este código já foi utilizado recentemente."] }, st)) ∧
    (∀ r st', User2FAService.validar_codigo_2fa tv st codigo now = (r, st') →
      r.method_used = some Autenticacao2FA.TOTP →
      (User2FAService.validar_codigo_2fa tv2 st' codigo now2).1.method_used
          = some Autenticacao2FA.REUSED ∧
      (User2FAService.validar_codigo_2fa tv2 st' codigo now2).2 = st') := by
  constructor
  · intro hlast
    exact validar_reused_helper tv st codigo now h2fa hsec hlast
  · intro r st' heq hm
    obtain ⟨hshape, _, _⟩ := validar_totp_shape tv st codigo now r st' heq hm
    subst hshape
    rw [validar_reused_helper tv2
      ({ st with user := { st.user with ultimo_otp := some codigo } })
      codigo now2 h2fa hsec rfl]
    exact ⟨rfl, rfl⟩

/-- C1 witness: the enabled user `stW` with `ultimo_otp = "111111"`:
submitting `"111111"` is refused as reused; after a TOTP validation of
`"222222"`, submitting `"222222"` again is refused as reused. -/
theorem validar_codigo_reused_antireplay_witness :
    User2FAService.validar_codigo_2fa tvAccept stW "111111" 100
      = ({ success := false, method_used := some .REUSED,
           error_message := some "Código 2FA já foi utilizado recentemente.",
           remaining_backup_codes := none,
           security_warnings :=
             ["Atenção: Este código já foi utilizado recentemente."] }, stW) ∧
    (User2FAService.validar_codigo_2fa tvReject
        (User2FAService.validar_codigo_2fa tvAccept stW "222222" 100).2
        "222222" 101).1.method_used = some Autenticacao2FA.REUSED := by
  constructor
  · exact (validar_codigo_reused_antireplay tvAccept tvAccept stW "111111"
      100 100 rfl rfl).1 rfl
  · exact ((validar_codigo_reused_antireplay tvAccept tvReject stW "222222"
      100 101 rfl rfl).2
      (User2FAService.validar_codigo_2fa tvAccept stW "222222" 100).1
      (User2FAService.validar_codigo_2fa tvAccept stW "222222" 100).2
      rfl (by decide)).1

/-- C10: when `validar_codigo_2fa` succeeds through a backup code, the
user row is untouched (`ultimo_otp` and the stored secret included) and
only the matched backup row is rewritten, so the previously accepted
TOTP value is still refused as `REUSED` on the next call; and every
outcome other than TOTP leaves `ultimo_otp` and the secret unchanged. -/
theorem validar_backup_frame
    (tv tv2 : String → String → Bool) (st : DBState)
    (codigo : String) (now now2 : Nat) (r : TwoFAValidationResult) (st' : DBState)
    (heq : User2FAService.validar_codigo_2fa tv st codigo now = (r, st')) :
    (r.method_used = some Autenticacao2FA.BACKUP →
      st'.user = st.user ∧
      (∃ l1 c l2, st.codes = l1 ++ c :: l2 ∧
        backupMatches st.user.id codigo c = true ∧
        st'.codes = l1 ++ invalidateCode now KeepForDays.ONE_MONTH.value c :: l2) ∧
      (∀ c0, st.user.ultimo_otp = some c0 →
        (User2FAService.validar_codigo_2fa tv2 st' c0 now2).1.method_used
            = some Autenticacao2FA.REUSED ∧
        (User2FAService.validar_codigo_2fa tv2 st' c0 now2).2 = st')) ∧
    (r.method_used ≠ some Autenticacao2FA.TOTP →
      st'.user.ultimo_otp = st.user.ultimo_otp ∧
      st'.user.otp_secret = st.user.otp_secret) := by
  constructor
  · intro hm
    obtain ⟨huser, hcodes, hcons, h2fa, hsec⟩ :=
      validar_backup_shape tv st codigo now r st' heq hm
    refine ⟨huser, ?_, ?_⟩
    · rw [Backup2FAService.consumir_token] at hcons hcodes
      obtain ⟨l1, c, l2, e1, _, e3, e4⟩ := consumeScan_found _ _ _ _ _ hcons
      exact ⟨l1, c, l2, e1, e3, by rw [hcodes, e4]⟩
    · intro c0 hlast
      have h2fa' : st'.user.usa_2fa = true := by rw [huser]; exact h2fa
      have hsec' : pyFalsyOpt st'.user.otp_secret = false := by
        rw [huser]; exact hsec
      have hlast' : st'.user.ultimo_otp = some c0 := by rw [huser]; exact hlast
      rw [validar_reused_helper tv2 st' c0 now2 h2fa' hsec' hlast']
      exact ⟨rfl, rfl⟩
  · intro hm
    exact validar_non_totp_marker tv st codigo now r st' heq hm

/-- C10 witness: `stW` validates the backup code `"Bkup22"` (TOTP
rejecting), the user row survives unchanged, and the old accepted TOTP
value `"111111"` is still refused as reused afterwards. -/
theorem validar_backup_frame_witness :
    (User2FAService.validar_codigo_2fa tvReject stW "Bkup22" 100).1.method_used
      = some Autenticacao2FA.BACKUP ∧
    (User2FAService.validar_codigo_2fa tvReject stW "Bkup22" 100).2.user
      = stW.user ∧
    (User2FAService.validar_codigo_2fa tvReject
        (User2FAService.validar_codigo_2fa tvReject stW "Bkup22" 100).2
        "111111" 101).1.method_used = some Autenticacao2FA.REUSED := by
  have h := validar_backup_frame tvReject tvReject stW "Bkup22" 100 101
    (User2FAService.validar_codigo_2fa tvReject stW "Bkup22" 100).1
    (User2FAService.validar_codigo_2fa tvReject stW "Bkup22" 100).2 rfl
  have hb := h.1 (by decide)
  exact ⟨by decide, hb.1, (hb.2.2 "111111" rfl).1⟩

/-- C3: `validar_token_ativacao_2fa` performs exactly the claimed case
analysis: absent token → MISSING_TOKEN; token rejected by the token
service → INVALID_TOKEN; accepted but with an action other than
ACTIVATING_2FA (even with a valid signature) → INVALID_TOKEN; right
action but extra data absent or lacking a usable tentative secret or QR
image → INVALID_TOKEN; then subject not matching the requesting user's
id → WRONG_USER; otherwise ENABLING carrying the tentative secret and
QR image from the token. -/
theorem validar_token_ativacao_cases (serverKey : String) (now : Int)
    (usuario : User) (tok : JWTToken) (d : VerifyResult)
    (hver : JWTService.verify serverKey now tok = some d) :
    User2FAService.validar_token_ativacao_2fa serverKey now usuario none
      = some { status := .MISSING_TOKEN } ∧
    (d.valid = false →
      User2FAService.validar_token_ativacao_2fa serverKey now usuario (some tok)
        = some { status := .INVALID_TOKEN }) ∧
    (d.valid = true → d.action ≠ some JWT_action.ACTIVATING_2FA →
      User2FAService.validar_token_ativacao_2fa serverKey now usuario (some tok)
        = some { status := .INVALID_TOKEN }) ∧
    (d.valid = true → d.action = some JWT_action.ACTIVATING_2FA →
      (d.extra_data = none ∨
       (∃ ed, d.extra_data = some ed ∧
         (pyFalsyOpt (ed.lookup "tentative_otp") = true ∨
          pyFalsyOpt (ed.lookup "qr_code_base64") = true))) →
      User2FAService.validar_token_ativacao_2fa serverKey now usuario (some tok)
        = some { status := .INVALID_TOKEN }) ∧
    (∀ ed, d.valid = true → d.action = some JWT_action.ACTIVATING_2FA →
      d.extra_data = some ed →
      pyFalsyOpt (ed.lookup "tentative_otp") = false →
      pyFalsyOpt (ed.lookup "qr_code_base64") = false →
      toString usuario.id ≠ pyStr d.sub →
      User2FAService.validar_token_ativacao_2fa serverKey now usuario (some tok)
        = some { status := .WRONG_USER }) ∧
    (∀ ed, d.valid = true → d.action = some JWT_action.ACTIVATING_2FA →
      d.extra_data = some ed →
      pyFalsyOpt (ed.lookup "tentative_otp") = false →
      pyFalsyOpt (ed.lookup "qr_code_base64") = false →
      toString usuario.id = pyStr d.sub →
      User2FAService.validar_token_ativacao_2fa serverKey now usuario (some tok)
        = some { status := .ENABLING, secret := ed.lookup "tentative_otp",
                 qr_code_base64 := ed.lookup "qr_code_base64",
                 user_id := d.sub }) := by
  refine ⟨rfl, ?_, ?_, ?_, ?_, ?_⟩
  · intro hval
    simp [User2FAService.validar_token_ativacao_2fa, hver, hval]
  · intro hval hact
    simp [User2FAService.validar_token_ativacao_2fa, hver, hval, hact]
  · intro hval hact hed
    rcases hed with hnone | ⟨ed, hed, hfal⟩
    · simp [User2FAService.validar_token_ativacao_2fa, hver, hval, hact, hnone]
    · by_cases hnil : ed = []
      · subst hnil
        simp [User2FAService.validar_token_ativacao_2fa, hver, hval, hact, hed]
      · rcases hfal with hf | hf
        · simp [User2FAService.validar_token_ativacao_2fa, hver, hval, hact,
            hed, hnil, hf]
        · simp [User2FAService.validar_token_ativacao_2fa, hver, hval, hact,
            hed, hnil, hf]
  · intro ed hval hact hed ht hq hu
    have hnil : ed ≠ [] := by
      intro h
      subst h
      simp [List.lookup, pyFalsyOpt] at ht
    simp [User2FAService.validar_token_ativacao_2fa, hver, hval, hact, hed,
      hnil, ht, hq, hu]
  · intro ed hval hact hed ht hq hu
    have hnil : ed ≠ [] := by
      intro h
      subst h
      simp [List.lookup, pyFalsyOpt] at ht
    simp [User2FAService.validar_token_ativacao_2fa, hver, hval, hact, hed,
      hnil, ht, hq, hu]

/-- C3 witness: user 7 accepts its own enrollment token (ENABLING with
the tentative secret and QR image) and rejects an otherwise identical
token carrying the PENDING_2FA action. -/
theorem validar_token_ativacao_cases_witness :
    User2FAService.validar_token_ativacao_2fa "k" 150 userW
        (some (JWTService.create "k" JWT_action.ACTIVATING_2FA "7" 100 90
          (some [("tentative_otp", "T"), ("qr_code_base64", "Q")])))
      = some { status := .ENABLING, secret := some "T",
               qr_code_base64 := some "Q", user_id := some "7" } ∧
    User2FAService.validar_token_ativacao_2fa "k" 150 userW
        (some (JWTService.create "k" JWT_action.PENDING_2FA "7" 100 90
          (some [("tentative_otp", "T"), ("qr_code_base64", "Q")])))
      = some { status := .INVALID_TOKEN } := by
  have h1 := validar_token_ativacao_cases "k" 150 userW
    (JWTService.create "k" JWT_action.ACTIVATING_2FA "7" 100 90
      (some [("tentative_otp", "T"), ("qr_code_base64", "Q")]))
    { valid := true, sub := some "7", action := some JWT_action.ACTIVATING_2FA,
      age := some 50,
      extra_data := some [("tentative_otp", "T"), ("qr_code_base64", "Q")] }
    (by rfl)
  have h2 := validar_token_ativacao_cases "k" 150 userW
    (JWTService.create "k" JWT_action.PENDING_2FA "7" 100 90
      (some [("tentative_otp", "T"), ("qr_code_base64", "Q")]))
    { valid := true, sub := some "7", action := some JWT_action.PENDING_2FA,
      age := some 50,
      extra_data := some [("tentative_otp", "T"), ("qr_code_base64", "Q")] }
    (by rfl)
  constructor
  · exact h1.2.2.2.2.2 [("tentative_otp", "T"), ("qr_code_base64", "Q")]
      rfl rfl rfl (by decide) (by decide) (by decide)
  · exact h2.2.2.1 rfl (by decide)

/-- C4 (amended): for a user without 2FA, a failing confirmation code
returns INVALID_CODE with no state change and a user already enabled
gets ALREADY_ENABLED with no mutation; a passing code sets
`usa_2fa = true`, stores the confirmed secret, sets the anti-replay
marker `ultimo_otp` to the submitted confirmation code (rather than
clearing it), generates `max(0, min(quantidade, 20))` backup codes and
returns ENABLED with their plaintexts. -/
theorem confirmar_ativacao_behaviour (tv : String → String → Bool)
    (st : DBState) (secret codigo : String) (q : Int)
    (rng : Nat → String) (rngSalt : Nat → Nat) (now : Nat) :
    (st.user.usa_2fa = true →
      User2FAService.confirmar_ativacao_2fa tv st secret codigo true q
          rng rngSalt now
        = Except.ok ({ status := .ALREADY_ENABLED }, st)) ∧
    (st.user.usa_2fa = false → tv secret codigo = false →
      User2FAService.confirmar_ativacao_2fa tv st secret codigo true q
          rng rngSalt now
        = Except.ok ({ status := .INVALID_CODE }, st)) ∧
    (st.user.usa_2fa = false → tv secret codigo = true →
      User2FAService.confirmar_ativacao_2fa tv st secret codigo true q
          rng rngSalt now
        = Except.ok
            ({ status := .ENABLED,
               backup_codes :=
                 some ((List.range (max 0 (min q 20)).toNat).map rng) },
             {
               user :=
                 {
                   st.user with
                   usa_2fa := true
                   otp_secret := some secret
                   ultimo_otp := some codigo },
               codes :=
                 (Backup2FAService.invalidar_codigos st.codes
                     st.user.id now KeepForDays.ONE_MONTH false).2
                   ++ newBatch st.user.id (max 0 (min q 20)).toNat rng rngSalt })) ∧
    (max 0 (min q 20)).toNat ≤ 20 := by
  refine ⟨?_, ?_, ?_, ?_⟩
  · intro h
    simp [User2FAService.confirmar_ativacao_2fa, h]
  · intro h hv
    simp [User2FAService.confirmar_ativacao_2fa, h, hv]
  · intro h hv
    simp [User2FAService.confirmar_ativacao_2fa, h, hv,
      Backup2FAService.gerar_novos_codigos]
  · omega

/-- C4 witness for the amended behaviour: a failing code mutates
nothing, and an already-enabled user is refused. -/
theorem confirmar_ativacao_behaviour_witness :
    User2FAService.confirmar_ativacao_2fa tvReject
        ({ user := { id := 7, email := "user@example.com", usa_2fa := false,
                     otp_secret := none, ultimo_otp := none }, codes := [] })
        "JBSWY3DPEHPK3PXP" "999999" true 10 rngW saltW 100
      = Except.ok ({ status := .INVALID_CODE },
          { user := { id := 7, email := "user@example.com", usa_2fa := false,
                      otp_secret := none, ultimo_otp := none }, codes := [] }) ∧
    User2FAService.confirmar_ativacao_2fa tvAccept stW
        "JBSWY3DPEHPK3PXP" "999999" true 10 rngW saltW 100
      = Except.ok ({ status := .ALREADY_ENABLED }, stW) := by
  have h1 := confirmar_ativacao_behaviour tvReject
    ({ user := { id := 7, email := "user@example.com", usa_2fa := false,
                 otp_secret := none, ultimo_otp := none }, codes := [] })
    "JBSWY3DPEHPK3PXP" "999999" 10 rngW saltW 100
  have h2 := confirmar_ativacao_behaviour tvAccept stW
    "JBSWY3DPEHPK3PXP" "999999" 10 rngW saltW 100
  exact ⟨h1.2.1 rfl rfl, h2.1 rfl⟩

/-- C4 counterexample: confirming enrollment with code `"222222"` for a
user whose anti-replay marker was `"111111"` ends with
`ultimo_otp = some "222222"`: the marker is overwritten with the
submitted code, not cleared, refuting the claim that a successful
confirmation clears the anti-replay marker. -/
theorem confirmar_ativacao_marker_not_cleared :
    User2FAService.confirmar_ativacao_2fa tvAccept
        ({ user := { id := 7, email := "user@example.com", usa_2fa := false,
                     otp_secret := none, ultimo_otp := some "111111" },
           codes := [] })
        "JBSWY3DPEHPK3PXP" "222222" true 2 rngW saltW 100
      = Except.ok
          ({ status := .ENABLED, backup_codes := some ["Abcd22", "Efgh23"] },
           { user := { id := 7, email := "user@example.com", usa_2fa := true,
                       otp_secret := some "JBSWY3DPEHPK3PXP",
                       ultimo_otp := some "222222" },
             codes := [{ usuario_id := 7,
                         hash_codigo := { salt := 0, digest := "Abcd22" },
                         utilizado := false },
                       { usuario_id := 7,
                         hash_codigo := { salt := 1, digest := "Efgh23" },
                         utilizado := false }] }) ∧
    (some "222222" : Option String) ≠ none := by
  exact ⟨rfl, by decide⟩
